import Mathlib

/-!
# Verification of the qualitative-analysis pipeline core

A shallow embedding, in Lean 4, of the core algorithms of the
qualitative-research analysis pipeline (`src/main.py`,
`src/processors/ai_client.py`, `src/processors/text_processor.py`),
together with theorems settling the specification's claims about them.

Conventions: Python lists become `List`, dicts keyed by strings become
association lists, machine integers become `Nat`/`Int` with explicit
signed arithmetic where Python subtraction may go negative, exceptions
become `Except`, and `asyncio.gather(..., return_exceptions=True)` is
modelled by an explicit completion-order semantics (the scheduler picks
an arbitrary order in which tasks finish; results are written into
positional slots).
-/

set_option autoImplicit false

namespace QualPipeline

universe u
variable {α : Type u}

/-! ## VerbatimChunker — `QualitativeAnalysisPipeline._chunk_verbatims`
(`src/main.py`, lines 215-246)

The chunker walks the verbatim list once, keeping a running chunk and
its running token total.  `cost v` embeds
`text_processor.get_token_count(json.dumps(verbatim))` — a non-negative
integer — and `ceiling` embeds
`min(target_input_tokens_per_chunk, max_tokens - 1000 - response_tokens
- safety_buffer)` (the Python subtraction may be negative, so the
ceiling is an `Int`). -/

/-- One iteration of the `for verbatim in verbatims` loop of
`_chunk_verbatims`: state is `(chunks, current_chunk, current_tokens)`. -/
def chunkStep (cost : α → Nat) (ceiling : Int) :
    List (List α) × List α × Nat → α → List (List α) × List α × Nat :=
  fun st v =>
    if ((st.2.2 + cost v : Nat) : Int) > ceiling then
      (if st.2.1.isEmpty then st.1 else st.1 ++ [st.2.1], [v], cost v)
    else
      (st.1, st.2.1 ++ [v], st.2.2 + cost v)

theorem chunkStep_pos (cost : α → Nat) (ceiling : Int)
    (st : List (List α) × List α × Nat) (v : α)
    (h : ((st.2.2 + cost v : Nat) : Int) > ceiling) :
    chunkStep cost ceiling st v
      = (if st.2.1.isEmpty then st.1 else st.1 ++ [st.2.1], [v], cost v) := by
  unfold chunkStep
  rw [if_pos h]

theorem chunkStep_neg (cost : α → Nat) (ceiling : Int)
    (st : List (List α) × List α × Nat) (v : α)
    (h : ¬ ((st.2.2 + cost v : Nat) : Int) > ceiling) :
    chunkStep cost ceiling st v
      = (st.1, st.2.1 ++ [v], st.2.2 + cost v) := by
  unfold chunkStep
  rw [if_neg h]

/-- `QualitativeAnalysisPipeline._chunk_verbatims`: greedy sequential
bin-packing of the verbatim sequence into token-bounded chunks, with the
final non-empty chunk flushed after the loop. -/
def chunk_verbatims (cost : α → Nat) (ceiling : Int) (vs : List α) :
    List (List α) :=
  let st := vs.foldl (chunkStep cost ceiling) ([], [], 0)
  if st.2.1.isEmpty then st.1 else st.1 ++ [st.2.1]

/-- The effective per-chunk ceiling computed inside `_chunk_verbatims`:
`min(self.config.processing.target_input_tokens_per_chunk,
max_tokens - base_tokens - response_tokens - safety_buffer)` with
`base_tokens = 1000`. -/
def effectiveCeiling (target maxTokens responseTokens safetyBuffer : Int) : Int :=
  min target (maxTokens - 1000 - responseTokens - safetyBuffer)

/-- Summed serialized token cost of a chunk. -/
def sumCost (cost : α → Nat) (c : List α) : Nat :=
  (c.map cost).sum

/-- A chunk is admissible when its summed cost fits under the ceiling,
or it is a singleton whose lone record is itself over the ceiling. -/
def goodChunk (cost : α → Nat) (ceiling : Int) (c : List α) : Prop :=
  ((sumCost cost c : Nat) : Int) ≤ ceiling ∨
    ∃ v, c = [v] ∧ ((cost v : Nat) : Int) > ceiling

/-- Loop invariant of `_chunk_verbatims`. -/
def ChunkInv (cost : α → Nat) (ceiling : Int)
    (st : List (List α) × List α × Nat) : Prop :=
  (∀ c ∈ st.1, c ≠ [] ∧ goodChunk cost ceiling c) ∧
    st.2.2 = sumCost cost st.2.1 ∧
    (st.2.1 ≠ [] → goodChunk cost ceiling st.2.1)

theorem sumCost_append (cost : α → Nat) (c : List α) (v : α) :
    sumCost cost (c ++ [v]) = sumCost cost c + cost v := by
  simp [sumCost]

theorem chunkStep_inv (cost : α → Nat) (ceiling : Int)
    (st : List (List α) × List α × Nat) (v : α)
    (h : ChunkInv cost ceiling st) :
    ChunkInv cost ceiling (chunkStep cost ceiling st v) := by
  obtain ⟨hchunks, htok, hcur⟩ := h
  by_cases hover : ((st.2.2 + cost v : Nat) : Int) > ceiling
  · rw [chunkStep_pos cost ceiling st v hover]
    refine ⟨?_, by simp [sumCost], ?_⟩
    · intro c hc
      by_cases hemp : st.2.1.isEmpty
      · rw [if_pos hemp] at hc
        exact hchunks c hc
      · rw [if_neg hemp] at hc
        rcases List.mem_append.mp hc with hc | hc
        · exact hchunks c hc
        · rcases List.mem_singleton.mp hc with rfl
          have hne : st.2.1 ≠ [] := by
            simpa [List.isEmpty_iff] using hemp
          exact ⟨hne, hcur hne⟩
    · intro _
      rcases le_or_lt ((cost v : Nat) : Int) ceiling with hle | hlt
      · exact Or.inl (by simpa [sumCost] using hle)
      · exact Or.inr ⟨v, rfl, hlt⟩
  · rw [chunkStep_neg cost ceiling st v hover]
    refine ⟨hchunks, ?_, ?_⟩
    · simp [sumCost_append, htok]
    · intro _
      push_neg at hover
      exact Or.inl (by simpa [sumCost_append, htok] using hover)

theorem chunkStep_flatten (cost : α → Nat) (ceiling : Int)
    (st : List (List α) × List α × Nat) (v : α) :
    ((chunkStep cost ceiling st v).1.flatten ++ (chunkStep cost ceiling st v).2.1)
      = (st.1.flatten ++ st.2.1) ++ [v] := by
  by_cases hover : ((st.2.2 + cost v : Nat) : Int) > ceiling
  · rw [chunkStep_pos cost ceiling st v hover]
    by_cases hemp : st.2.1.isEmpty
    · have hnil : st.2.1 = [] := by simpa [List.isEmpty_iff] using hemp
      simp [hemp, hnil]
    · simp [hemp]
  · rw [chunkStep_neg cost ceiling st v hover]
    simp

theorem foldl_chunkStep_inv (cost : α → Nat) (ceiling : Int) :
    ∀ (vs : List α) (st : List (List α) × List α × Nat),
      ChunkInv cost ceiling st →
      ChunkInv cost ceiling (vs.foldl (chunkStep cost ceiling) st) := by
  intro vs
  induction vs with
  | nil => intro st h; exact h
  | cons v vs ih =>
      intro st h
      exact ih _ (chunkStep_inv cost ceiling st v h)

theorem foldl_chunkStep_flatten (cost : α → Nat) (ceiling : Int) :
    ∀ (vs : List α) (st : List (List α) × List α × Nat),
      ((vs.foldl (chunkStep cost ceiling) st).1.flatten
          ++ (vs.foldl (chunkStep cost ceiling) st).2.1)
        = (st.1.flatten ++ st.2.1) ++ vs := by
  intro vs
  induction vs with
  | nil => intro st; simp
  | cons v vs ih =>
      intro st
      have hstep := chunkStep_flatten cost ceiling st v
      calc ((vs.foldl (chunkStep cost ceiling) (chunkStep cost ceiling st v)).1.flatten
              ++ (vs.foldl (chunkStep cost ceiling) (chunkStep cost ceiling st v)).2.1)
          = ((chunkStep cost ceiling st v).1.flatten
              ++ (chunkStep cost ceiling st v).2.1) ++ vs := ih _
        _ = ((st.1.flatten ++ st.2.1) ++ [v]) ++ vs := by rw [hstep]
        _ = (st.1.flatten ++ st.2.1) ++ (v :: vs) := by simp

theorem chunk_verbatims_spec (cost : α → Nat) (ceiling : Int) (vs : List α) :
    (chunk_verbatims cost ceiling vs).flatten = vs ∧
      ∀ c ∈ chunk_verbatims cost ceiling vs,
        c ≠ [] ∧ goodChunk cost ceiling c := by
  have hinv : ChunkInv cost ceiling
      (vs.foldl (chunkStep cost ceiling) ([], [], 0)) :=
    foldl_chunkStep_inv cost ceiling vs ([], [], 0)
      ⟨fun c hc => absurd hc (List.not_mem_nil c), by simp [sumCost],
        fun h => absurd rfl h⟩
  have hflat := foldl_chunkStep_flatten cost ceiling vs ([], [], 0)
  obtain ⟨hchunks, _, hcur⟩ := hinv
  unfold chunk_verbatims
  by_cases hemp : (vs.foldl (chunkStep cost ceiling) ([], [], 0)).2.1.isEmpty
  · have hnil : (vs.foldl (chunkStep cost ceiling) ([], [], 0)).2.1 = [] := by
      simpa [List.isEmpty_iff] using hemp
    rw [if_pos hemp]
    refine ⟨?_, hchunks⟩
    simpa [hnil] using hflat
  · have hne : (vs.foldl (chunkStep cost ceiling) ([], [], 0)).2.1 ≠ [] := by
      simpa [List.isEmpty_iff] using hemp
    rw [if_neg hemp]
    refine ⟨by simpa using hflat, ?_⟩
    intro c hc
    rcases List.mem_append.mp hc with hc | hc
    · exact hchunks c hc
    · rcases List.mem_singleton.mp hc with rfl
      exact ⟨hne, hcur hne⟩

/-- C1: for every finite ordered sequence of verbatim records, the
chunker's output batches, concatenated in order, reproduce the input
sequence exactly (an order-preserving partition, no record dropped,
none duplicated); every emitted batch is non-empty; and every batch's
summed per-record serialized token cost is at most the effective
ceiling `min(target_input_tokens_per_chunk, max_tokens - 1000 -
response_tokens - safety_buffer)`, except a singleton batch whose
single record's own cost already exceeds the ceiling. -/
theorem claim_chunker_partition {α : Type u} (cost : α → Nat)
    (target maxTokens responseTokens safetyBuffer : Int) (vs : List α) :
    (chunk_verbatims cost
        (effectiveCeiling target maxTokens responseTokens safetyBuffer) vs).flatten
        = vs ∧
    (∀ c ∈ chunk_verbatims cost
        (effectiveCeiling target maxTokens responseTokens safetyBuffer) vs,
      c ≠ []) ∧
    (∀ c ∈ chunk_verbatims cost
        (effectiveCeiling target maxTokens responseTokens safetyBuffer) vs,
      ((sumCost cost c : Nat) : Int)
          ≤ effectiveCeiling target maxTokens responseTokens safetyBuffer ∨
        ∃ v, c = [v] ∧
          ((cost v : Nat) : Int)
            > effectiveCeiling target maxTokens responseTokens safetyBuffer) := by
  obtain ⟨hflat, hgood⟩ := chunk_verbatims_spec cost
    (effectiveCeiling target maxTokens responseTokens safetyBuffer) vs
  exact ⟨hflat, fun c hc => (hgood c hc).1, fun c hc => (hgood c hc).2⟩

/-- Concrete instantiation of `claim_chunker_partition`: verbatim costs
`[3, 3, 6]` under configuration `target = 5`, `max_tokens = 2000`,
`response_tokens = 500`, `safety_buffer = 100` (effective ceiling `5`);
the oversized record of cost `6` sits alone in its batch. -/
theorem claim_chunker_partition_witness :
    (chunk_verbatims (fun n : Nat => n)
        (effectiveCeiling 5 2000 500 100) [3, 3, 6]).flatten = [3, 3, 6] ∧
    ([6] ≠ ([] : List Nat)) ∧
    (((sumCost (fun n : Nat => n) [6] : Nat) : Int)
        ≤ effectiveCeiling 5 2000 500 100 ∨
      ∃ v, [6] = [v] ∧
        ((v : Nat) : Int) > effectiveCeiling 5 2000 500 100) :=
  ⟨(claim_chunker_partition (fun n : Nat => n) 5 2000 500 100 [3, 3, 6]).1,
    (claim_chunker_partition (fun n : Nat => n) 5 2000 500 100 [3, 3, 6]).2.1
      [6] (by decide),
    (claim_chunker_partition (fun n : Nat => n) 5 2000 500 100 [3, 3, 6]).2.2
      [6] (by decide)⟩

/-! ## BatchDispatcher — `asyncio.gather(*tasks, return_exceptions=True)`
as used by `perform_question_mapping` (`src/main.py`, lines 153-165)
and `perform_emergent_topic_analysis` (lines 191-213).

Each task settles to `Except E A` (`.error` embeds a raised exception,
which `return_exceptions=True` captures in place).  The scheduler
finishes the tasks in an arbitrary completion order; `gather` writes
each finished task's outcome into the slot of its originating index and
finally reads the slots out in input order. -/

/-- Slot store after running the tasks whose indices are listed in
`order` (completion order): slot `j` holds `tasks[j]`'s outcome once
`j` has completed. -/
def runOrder {E A : Type} (tasks : List (Except E A)) :
    List Nat → (Nat → Option (Except E A)) → Nat → Option (Except E A)
  | [], slots => slots
  | i :: rest, slots =>
      runOrder tasks rest (fun j => if j = i then tasks.get? i else slots j)

/-- The dispatcher: collect the slots in input-index order after all
tasks finished in completion order `order`. -/
def gatherDispatch {E A : Type} (tasks : List (Except E A))
    (order : List Nat) : List (Option (Except E A)) :=
  (List.range tasks.length).map (runOrder tasks order (fun _ => none))

theorem runOrder_not_mem {E A : Type} (tasks : List (Except E A)) :
    ∀ (order : List Nat) (slots : Nat → Option (Except E A)) (j : Nat),
      j ∉ order → runOrder tasks order slots j = slots j := by
  intro order
  induction order with
  | nil => intro slots j _; rfl
  | cons i rest ih =>
      intro slots j hj
      have hji : j ≠ i := fun h => hj (h ▸ List.mem_cons_self i rest)
      have hrest : j ∉ rest := fun h => hj (List.mem_cons_of_mem i h)
      unfold runOrder
      rw [ih _ j hrest]
      simp [hji]

theorem runOrder_mem {E A : Type} (tasks : List (Except E A)) :
    ∀ (order : List Nat) (slots : Nat → Option (Except E A)) (j : Nat),
      j ∈ order → runOrder tasks order slots j = tasks.get? j := by
  intro order
  induction order with
  | nil => intro slots j hj; exact absurd hj (List.not_mem_nil j)
  | cons i rest ih =>
      intro slots j hj
      by_cases hmem : j ∈ rest
      · exact ih _ j hmem
      · have hji : j = i := by
          rcases List.mem_cons.mp hj with h | h
          · exact h
          · exact absurd h hmem
        unfold runOrder
        rw [runOrder_not_mem tasks rest _ j hmem]
        simp [hji]

/-- After a completion order that is a permutation of all task indices,
the dispatcher's output is positionally exact: slot `i` holds
`some tasks[i]`. -/
theorem gatherDispatch_perm {E A : Type} (tasks : List (Except E A))
    (order : List Nat) (hperm : order.Perm (List.range tasks.length)) :
    gatherDispatch tasks order = tasks.map some := by
  unfold gatherDispatch
  have hmem : ∀ j ∈ List.range tasks.length, j ∈ order := fun j hj =>
    (hperm.mem_iff).mpr hj
  have hslot : ∀ j ∈ List.range tasks.length,
      runOrder tasks order (fun _ => none) j = tasks.get? j := fun j hj =>
    runOrder_mem tasks order _ j (hmem j hj)
  calc (List.range tasks.length).map (runOrder tasks order (fun _ => none))
      = (List.range tasks.length).map (fun j => tasks.get? j) :=
        List.map_congr_left hslot
    _ = tasks.map some := by
        clear hmem hslot hperm
        induction tasks with
        | nil => rfl
        | cons t ts ih =>
            show List.map (fun j => (t :: ts).get? j) (List.range (ts.length + 1))
              = some t :: List.map some ts
            rw [List.range_succ_eq_map]
            simp only [List.map_cons, List.get?_cons_zero, List.map_map]
            congr 1

/-- C2: for every ordered sequence of N independent reasoning requests
dispatched as one batch, the dispatcher returns exactly N results in
input order regardless of completion order; the result at position i is
the (possibly failed) outcome of request i, so a failure marker sits at
position i exactly when request i failed, and a failure at one position
leaves every other position's successful result intact. -/
theorem claim_dispatch_positional {E A : Type} (tasks : List (Except E A))
    (order : List Nat) (hperm : order.Perm (List.range tasks.length)) :
    gatherDispatch tasks order = tasks.map some ∧
    (gatherDispatch tasks order).length = tasks.length ∧
    ∀ i : Nat, (gatherDispatch tasks order).get? i = (tasks.get? i).map some := by
  have heq := gatherDispatch_perm tasks order hperm
  refine ⟨heq, ?_, ?_⟩
  · rw [heq, List.length_map]
  · intro i
    rw [heq, List.get?_map]

/-- Concrete instantiation of `claim_dispatch_positional`: three
requests with the middle one failing, settled in completion order
`[2, 0, 1]`; the failure marker appears at position 1 only. -/
theorem claim_dispatch_positional_witness :
    gatherDispatch
        [Except.ok 10, Except.error "boom", Except.ok 30] [2, 0, 1]
      = [some (Except.ok 10), some (Except.error "boom"),
          some (Except.ok (30 : Nat))] :=
  (claim_dispatch_positional
    [Except.ok 10, Except.error "boom", Except.ok (30 : Nat)] [2, 0, 1]
    (by decide)).1

/-! ## Emergent-topic stage —
`QualitativeAnalysisPipeline.perform_emergent_topic_analysis`
(`src/main.py`, lines 191-213) -/

/-- `not isinstance(r, Exception)` filter: a settled task's value, when
it did not raise. -/
def exceptOk {E R : Type} : Except E R → Option R
  | Except.ok v => some v
  | Except.error _ => none

/-- The tail of `perform_emergent_topic_analysis` after the gather:
`valid_results = [r for r in chunk_results if not isinstance(r,
Exception)]`; raise when empty, else return `valid_results[0]`. -/
def perform_emergent_topic_analysis {E R : Type}
    (chunkResults : List (Except E R)) : Except String R :=
  match chunkResults.filterMap exceptOk with
  | [] => Except.error "No valid results from emergent topic analysis"
  | v :: _ => Except.ok v

/-- The whole stage: per-chunk tasks dispatched through
`asyncio.gather`, then first-valid selection. -/
def emergentStage {E R : Type} (tasks : List (Except E R))
    (order : List Nat) : Except String R :=
  perform_emergent_topic_analysis
    ((gatherDispatch tasks order).filterMap id)

/-! ## Pipeline orchestration —
`QualitativeAnalysisPipeline.run_pipeline` (`src/main.py`, lines
325-380) and `main` (lines 395-432).

`run_pipeline` is modelled by its control-flow skeleton on the two
decisions the claims are about: the emptiness check on the extracted
verbatims (lines 338-340: log `"No verbatims extracted!"` and `return`)
and the propagation of an exception from the awaited analysis stages
through the `except` clause (lines 378-380: log `"Pipeline failed:
..."` and re-raise).  Exporter calls and the strategic-analysis stage
never raise on the paths the claims concern and are elided.  The first
component of the result is the list of error-level log lines, the
second the run's outcome (`.error` = an exception escaped
`run_pipeline`). -/
def run_pipeline {V R : Type} (verbatims : List V)
    (emergentResult : Except String R) : List String × Except String Unit :=
  if verbatims.isEmpty then
    (["No verbatims extracted!"], Except.ok ())
  else
    match emergentResult with
    | Except.error e => (["Pipeline failed: " ++ e], Except.error e)
    | Except.ok _ => ([], Except.ok ())

/-- `main` (`src/main.py`, lines 426-432): exit code 0 with a success
message when `run_pipeline` returns normally, exit code 1 when it
raises. -/
def mainExitCode (outcome : Except String Unit) : Nat :=
  match outcome with
  | Except.ok _ => 0
  | Except.error _ => 1

/-- C3: for the multi-batch emergent-topic stage (under any completion
order of the per-batch calls): if every per-batch reasoning call fails,
the stage raises, and the raised error escapes `run_pipeline` (the run
exits with code 1); if at least one batch call succeeds, the stage's
result is exactly the first valid batch result in batch order, all
later valid results discarded. -/
theorem claim_emergent_first_valid {E R V : Type}
    (tasks : List (Except E R)) (order : List Nat)
    (hperm : order.Perm (List.range tasks.length)) :
    ((∀ t ∈ tasks, exceptOk t = none) →
      emergentStage tasks order
          = Except.error "No valid results from emergent topic analysis" ∧
        ∀ verbatims : List V, ¬ verbatims.isEmpty →
          mainExitCode (run_pipeline verbatims (emergentStage tasks order)).2
            = 1) ∧
    (∀ v : R, (tasks.filterMap exceptOk).head? = some v →
      emergentStage tasks order = Except.ok v) := by
  have hcollapse : (gatherDispatch tasks order).filterMap id = tasks := by
    rw [gatherDispatch_perm tasks order hperm]
    simp
  constructor
  · intro hfail
    have hnil : tasks.filterMap exceptOk = [] :=
      List.filterMap_eq_nil_iff.mpr hfail
    have hstage : emergentStage tasks order
        = Except.error "No valid results from emergent topic analysis" := by
      unfold emergentStage perform_emergent_topic_analysis
      rw [hcollapse, hnil]
    refine ⟨hstage, ?_⟩
    intro verbatims hne
    unfold run_pipeline
    rw [if_neg hne, hstage]
    rfl
  · intro v hv
    unfold emergentStage perform_emergent_topic_analysis
    rw [hcollapse]
    rcases hfilter : tasks.filterMap exceptOk with _ | ⟨w, rest⟩
    · rw [hfilter] at hv
      exact absurd hv (by simp)
    · rw [hfilter] at hv
      simp only [List.head?_cons, Option.some.injEq] at hv
      rw [hv]

/-- Concrete instantiation of `claim_emergent_first_valid`: batches
`[error, ok 7, ok 9]` under completion order `[1, 2, 0]` — the stage
returns the first valid result `7` (discarding `9`); and with every
batch failing the stage error reaches the exit code. -/
theorem claim_emergent_first_valid_witness :
    emergentStage [Except.error "a", Except.ok 7, Except.ok (9 : Nat)]
        [1, 2, 0] = Except.ok 7 ∧
    mainExitCode
        (run_pipeline [()]
          (emergentStage
            ([Except.error "a", Except.error "b"] : List (Except String Nat))
            [1, 0])).2 = 1 :=
  ⟨(claim_emergent_first_valid
      [Except.error "a", Except.ok 7, Except.ok (9 : Nat)] [1, 2, 0]
      (by decide) (V := Unit)).2 7 (by decide),
    ((claim_emergent_first_valid
      ([Except.error "a", Except.error "b"] : List (Except String Nat)) [1, 0]
      (by decide) (V := Unit)).1 (by decide)).2 [()] (by decide)⟩

/-- C5 counterexample: with zero extracted verbatims `run_pipeline`
logs the error but returns normally — the outcome is a successful
completion (exit code 0), not a `Failed` terminal state. -/
theorem claim_empty_verbatims_counterexample :
    (run_pipeline ([] : List Unit) (Except.ok (0 : Nat))).2 = Except.ok () ∧
    mainExitCode (run_pipeline ([] : List Unit) (Except.ok (0 : Nat))).2 = 0 :=
  ⟨rfl, rfl⟩

/-- C5 (amended): if the verbatim-extraction stage yields zero verbatim
records, the pipeline logs the single error message `"No verbatims
extracted!"` identifying the stage and returns early, skipping every
analysis stage; the run then terminates as a normal completion (exit
code 0) rather than in a `Failed` state. -/
theorem claim_empty_verbatims_amended {V R : Type}
    (emergentResult : Except String R) :
    run_pipeline ([] : List V) emergentResult
        = (["No verbatims extracted!"], Except.ok ()) ∧
    mainExitCode (run_pipeline ([] : List V) emergentResult).2 = 0 :=
  ⟨rfl, rfl⟩

/-! ## TopicAggregator row expansion —
`QualitativeAnalysisPipeline._process_strategic_result`
(`src/main.py`, lines 292-323).

The claims concern the dict-shaped case, so the
`isinstance(result, dict)` guard is satisfied; the three lists and the
`key_insights` text are the fields read off `result`. -/

/-- One row of the strategic-analysis table. -/
structure StrategicRow where
  broadTopic : String
  subTopic : String
  keyInsights : String
  verbatimCount : Nat
  theme : String
  takeaway : String
  quote : String
deriving DecidableEq

/-- `_process_strategic_result`: emit one row with the heads of the
three lists (empty string when a list is empty), then one row per
further index `j ∈ [1, max_items)` with the `j`-th elements (empty
string when a list is shorter); every row spreads the same `base_row`
(broad topic, sub-topic, key insights, verbatim count). -/
def process_strategic_result (broadTopic subTopic keyInsights : String)
    (verbatimCount : Nat) (themes takeaways quotes : List String) :
    List StrategicRow :=
  let mk : String → String → String → StrategicRow := fun th tk q =>
    ⟨broadTopic, subTopic, keyInsights, verbatimCount, th, tk, q⟩
  let maxItems := max themes.length (max takeaways.length quotes.length)
  mk (themes.headD "") (takeaways.headD "") (quotes.headD "")
    :: (List.range' 1 (maxItems - 1)).map
        (fun j => mk (themes.getD j "") (takeaways.getD j "") (quotes.getD j ""))

theorem headD_eq_getD_zero {β : Type} (l : List β) (d : β) :
    l.headD d = l.getD 0 d := by
  cases l <;> rfl

/-- C4: for every topic pair whose strategic-analysis result carries
lists `themes`, `takeaways`, `quotes` (each possibly empty) and a
`key_insights` text, the row expansion emits exactly
`max 1 (max |themes| (max |takeaways| |quotes|))` rows — at least one
even when all three lists are empty — and row `j` carries the `j`-th
element of each list (the empty string when that list is shorter),
with every row repeating the same Broad Topic, Sub-Topic, Key
Insights, and Verbatim Count base fields. -/
theorem claim_strategic_rows (broadTopic subTopic keyInsights : String)
    (verbatimCount : Nat) (themes takeaways quotes : List String) :
    (process_strategic_result broadTopic subTopic keyInsights verbatimCount
        themes takeaways quotes).length
      = max 1 (max themes.length (max takeaways.length quotes.length)) ∧
    ∀ j : Nat,
      (process_strategic_result broadTopic subTopic keyInsights verbatimCount
          themes takeaways quotes).get? j
        = if j < max 1 (max themes.length (max takeaways.length quotes.length))
          then some ⟨broadTopic, subTopic, keyInsights, verbatimCount,
                themes.getD j "", takeaways.getD j "", quotes.getD j ""⟩
          else none := by
  constructor
  · simp only [process_strategic_result, List.length_cons, List.length_map,
      List.length_range']
    omega
  · intro j
    cases j with
    | zero =>
        have h0 : 0 < max 1 (max themes.length
            (max takeaways.length quotes.length)) := by omega
        simp only [process_strategic_result, List.get?_cons_zero, if_pos h0,
          headD_eq_getD_zero]
    | succ n =>
        simp only [process_strategic_result, List.get?_cons_succ,
          List.get?_map]
        by_cases hlt : n <
            max themes.length (max takeaways.length quotes.length) - 1
        · rw [List.get?_range' 1 _ hlt, Option.map_some',
            show 1 + 1 * n = n + 1 by omega, if_pos (by omega)]
        · rw [List.get?_eq_none.mpr (by simp [List.length_range']; omega)]
          rw [Option.map_none', if_neg (by omega)]

/-! ## RequestGate translation cache — `AIClient.translate_text`
(`src/processors/ai_client.py`, lines 184-205).

`self.translation_cache` is a Python dict keyed by the exact source
text, modelled as an association list where insertion prepends (so
lookup sees the newest binding, matching dict overwrite semantics).
`is_chinese` (`text_processor.is_chinese`) is a regex search over a
configured character-class pattern, taken as a parameter; the external
call `call_gpt5_nano` is a parameter returning `Except` (an `.error`
embeds a raised exception).  `.strip()` on the response content is
`String.trim`. -/

/-- `text in self.translation_cache` / `self.translation_cache[text]`. -/
def lookupCache (cache : List (String × String)) (text : String) :
    Option String :=
  (cache.find? (fun p => p.1 = text)).map Prod.snd

/-- Outcome of one `translate_text` call: the returned string, the
cache afterwards, whether an external reasoning call was issued, and
the error-level log lines. -/
structure TranslateOutcome where
  result : String
  cache : List (String × String)
  madeCall : Bool
  errorLog : List String
deriving DecidableEq

/-- `AIClient.translate_text`. -/
def translate_text (isChinese : String → Bool)
    (call : String → Except String String)
    (cache : List (String × String)) (text : String) : TranslateOutcome :=
  match lookupCache cache text with
  | some v => ⟨v, cache, false, []⟩
  | none =>
      if !(isChinese text) then
        ⟨text, (text, text) :: cache, false, []⟩
      else
        match call text with
        | Except.ok content =>
            ⟨content.trim, (text, content.trim) :: cache, true, []⟩
        | Except.error e =>
            ⟨text, cache, true, ["Translation error: " ++ e]⟩

theorem lookupCache_insert_self (cache : List (String × String))
    (text v : String) :
    lookupCache ((text, v) :: cache) text = some v := by
  simp [lookupCache]

/-- C6 counterexample: when the text needs translation and the external
call fails, nothing is cached, so the second of two successive calls
with the identical text issues another external reasoning call — it is
not answered from the memo cache. -/
theorem claim_translation_cache_counterexample :
    (translate_text (fun _ => true) (fun _ => Except.error "boom")
        (translate_text (fun _ => true) (fun _ => Except.error "boom")
          [] "text").cache
        "text").madeCall = true := by
  rfl

/-- C6 (amended): whenever the first `translate_text` call did not end
in a failed external call — the text was already in the memo cache,
required no translation per the language-detection predicate, or was
translated successfully — a second call with the identical text
returns the identical output and performs no external reasoning call
(it is answered from the memo cache); this holds even when the
external service would answer differently at the second invocation
(`callB`).  Text requiring no translation is memoized as identity on
the first call and returned unchanged.  After a failed first call
nothing is cached, so a second call re-issues the external call (the
counterexample) and its output follows that new outcome. -/
theorem claim_translation_cache_amended (isChinese : String → Bool)
    (callA callB : String → Except String String)
    (cache : List (String × String)) (text : String) :
    ((lookupCache cache text).isSome ∨ isChinese text = false ∨
        (callA text).isOk →
      (translate_text isChinese callB
            (translate_text isChinese callA cache text).cache text).result
          = (translate_text isChinese callA cache text).result ∧
        (translate_text isChinese callB
            (translate_text isChinese callA cache text).cache text).madeCall
          = false) ∧
    (isChinese text = false → lookupCache cache text = none →
      (translate_text isChinese callA cache text).result = text ∧
        lookupCache (translate_text isChinese callA cache text).cache text
          = some text) := by
  rcases hcache : lookupCache cache text with _ | v
  · by_cases hchin : isChinese text = false
    · constructor
      · intro _
        constructor <;>
          simp [translate_text, hcache, hchin, lookupCache_insert_self]
      · intro _ _
        constructor <;>
          simp [translate_text, hcache, hchin, lookupCache_insert_self]
    · have hchin2 : isChinese text = true := by
        revert hchin; cases isChinese text <;> simp
      rcases hcall : callA text with e | content
      · constructor
        · intro hok
          rcases hok with hok | hok | hok
          · exact absurd hok (by simp)
          · exact absurd hok (by simp [hchin2])
          · simp [Except.isOk, Except.toBool] at hok
        · intro hfalse _; exact absurd hfalse (by simp [hchin2])
      · constructor
        · intro _
          constructor <;>
            simp [translate_text, hcache, hchin2, hcall,
              lookupCache_insert_self]
        · intro hfalse _; exact absurd hfalse (by simp [hchin2])
  · constructor
    · intro _
      constructor <;> simp [translate_text, hcache]
    · intro _ hnone; exact absurd hnone (by simp)

/-- Concrete instantiation of `claim_translation_cache_amended`: text
the language predicate does not flag (no translation needed), starting
from an empty cache — the first call memoizes the identity and the
second is a cache hit, even though the external service would answer
differently at the second invocation. -/
theorem claim_translation_cache_amended_witness :
    (translate_text (fun _ => false) (fun _ => Except.ok "other")
        (translate_text (fun _ => false) (fun _ => Except.error "never")
          [] "hello").cache "hello").result
      = (translate_text (fun _ => false) (fun _ => Except.error "never")
          [] "hello").result ∧
    (translate_text (fun _ => false) (fun _ => Except.ok "other")
        (translate_text (fun _ => false) (fun _ => Except.error "never")
          [] "hello").cache "hello").madeCall = false ∧
    (translate_text (fun _ => false) (fun _ => Except.error "never")
        [] "hello").result = "hello" :=
  ⟨((claim_translation_cache_amended (fun _ => false)
      (fun _ => Except.error "never") (fun _ => Except.ok "other")
      [] "hello").1 (Or.inr (Or.inl rfl))).1,
    ((claim_translation_cache_amended (fun _ => false)
      (fun _ => Except.error "never") (fun _ => Except.ok "other")
      [] "hello").1 (Or.inr (Or.inl rfl))).2,
    ((claim_translation_cache_amended (fun _ => false)
      (fun _ => Except.error "never") (fun _ => Except.ok "other")
      [] "hello").2 rfl rfl).1⟩

/-- C10: for every input text not yet cached and flagged by the
language predicate, if the external reasoning call fails then
`translate_text` logs the error and returns the original input text
unchanged, with the cache untouched — the failure is absorbed inside
`translate_text` (which is a total function into `TranslateOutcome`),
so it never propagates and never aborts the pipeline. -/
theorem claim_translation_failure_returns_original
    (isChinese : String → Bool) (call : String → Except String String)
    (cache : List (String × String)) (text e : String)
    (hmiss : lookupCache cache text = none)
    (hchin : isChinese text = true)
    (hfail : call text = Except.error e) :
    translate_text isChinese call cache text
      = ⟨text, cache, true, ["Translation error: " ++ e]⟩ := by
  simp [translate_text, hmiss, hchin, hfail]

/-- Concrete instantiation of
`claim_translation_failure_returns_original`. -/
theorem claim_translation_failure_returns_original_witness :
    translate_text (fun _ => true) (fun _ => Except.error "boom")
        [] "text"
      = ⟨"text", [], true, ["Translation error: boom"]⟩ :=
  claim_translation_failure_returns_original (fun _ => true)
    (fun _ => Except.error "boom") [] "text" "boom" rfl rfl rfl

/-! ## AIClient construction and dry-run — `AIClient.__init__`
(`src/processors/ai_client.py`, lines 24-43) and
`AIClient.call_gpt5_nano` (lines 70-122). -/

/-- The fixed `DummyMessage.content` sentinel returned in dry-run
mode (lines 19-21). -/
def dryRunSentinel : String := "[DRY-RUN MODE] This is a simulated response."

/-- The credential check in `AIClient.__init__` (lines 29-33): the
OpenAI client is constructed only when an API key is configured,
otherwise `ValueError` is raised — the runtime
`execute_api_calls` flag is not consulted.  Returns the client's
execute flag on success. -/
def AIClient_init (apiKey : Option String) (executeApiCalls : Bool) :
    Except String Bool :=
  match apiKey with
  | some _ => Except.ok executeApiCalls
  | none => Except.error "OPENAI_API_KEY not configured"

/-- `AIClient.call_gpt5_nano` (lines 76-78 and onward): when
`config.runtime.execute_api_calls` is false the call returns the
dummy sentinel response immediately; otherwise the external request is
issued (`svc` is its outcome).  The second component records whether
an external network call was made. -/
def call_gpt5_nano (executeApiCalls : Bool)
    (svc : Except String String) : Except String String × Bool :=
  if executeApiCalls then (svc, true)
  else (Except.ok dryRunSentinel, false)

/-- C7 counterexample: constructing the client with no API key fails
with `ValueError`, even when external calls are disabled by
configuration — dry-run mode does not lift the credential
requirement. -/
theorem claim_dry_run_counterexample :
    AIClient_init none false = Except.error "OPENAI_API_KEY not configured" :=
  rfl

/-- C7 (amended): when execution of external API calls is disabled by
configuration, every reasoning call returns the fixed sentinel
response immediately without issuing any external network call;
however, constructing the client still requires an API key —
`AIClient.__init__` raises when none is configured, dry-run or not —
and succeeds for any configured key. -/
theorem claim_dry_run_amended (svc : Except String String)
    (apiKey : String) (executeApiCalls : Bool) :
    call_gpt5_nano false svc = (Except.ok dryRunSentinel, false) ∧
    AIClient_init none executeApiCalls
        = Except.error "OPENAI_API_KEY not configured" ∧
    AIClient_init (some apiKey) executeApiCalls
        = Except.ok executeApiCalls :=
  ⟨rfl, rfl, rfl⟩

/-! ## Objective-identifier validation —
`QualitativeAnalysisPipeline._process_mapping_result`
(`src/main.py`, lines 169-189).

`question_id.split("-")` is modelled by `splitOnDash` over the
string's character list (Lean's own `String.splitOn` does not reduce
inside the kernel); `int(...)` is modelled by `parseDigits`, which
accepts exactly the non-empty all-digit strings — Python's `int()`
additionally tolerates surrounding whitespace, an explicit sign, and
underscores, which no claim exercises.  A missing element 1 embeds the
`IndexError` branch and a failed parse the `ValueError` branch, both
caught and logged.  The subtraction `idx = n - 1` and the range check
`0 <= idx < len(objectives)` are carried out in `Int` (Python ints are
signed). -/

/-- `s.split("-")` on the character list: split into the (possibly
empty) maximal runs between `'-'` separators. -/
def splitOnDash (l : List Char) : List (List Char) :=
  l.foldr
    (fun c acc =>
      match acc with
      | [] => [[c]]
      | cur :: rest =>
          if c = '-' then [] :: cur :: rest else (c :: cur) :: rest)
    [[]]

/-- `int(s)` on the character list, restricted to non-empty all-digit
input; anything else raises `ValueError`, i.e. `none`. -/
def parseDigits (l : List Char) : Option Nat :=
  if l ≠ [] ∧ l.all (fun c => c.isDigit) then
    some (l.foldl (fun n c => n * 10 + (c.toNat - 48)) 0)
  else none

/-- `int(question_id.split("-")[1])`, with `none` tagging either
caught exception. -/
def parseQuestionNum (questionId : String) : Option Nat :=
  match (splitOnDash questionId.data).get? 1 with
  | none => none
  | some piece => parseDigits piece

/-- One discussion-guide objective `{section, question}`
(`section` is a Lean keyword, hence `sectionName`). -/
structure Objective where
  sectionName : String
  question : String
deriving DecidableEq

/-- One row appended to `all_mappings`. -/
structure MappingRow where
  sectionName : String
  question : String
  verbatimText : String
  speaker : String
  confidence : String
  reasoning : String
  sourceFile : String
deriving DecidableEq

/-- `_process_mapping_result`: returns the appended row (if any) and
the error-level log lines. -/
def process_mapping_result (questionId confidence : String)
    (verbatimText speaker reasoning sourceFile : String)
    (objectives : List Objective) : Option MappingRow × List String :=
  if questionId ≠ "ID-0" ∧ confidence ≠ "Low" then
    match parseQuestionNum questionId with
    | none => (none, ["Invalid question ID format: " ++ questionId])
    | some n =>
        if 0 ≤ (n : Int) - 1 ∧ (n : Int) - 1 < (objectives.length : Int)
        then
          match objectives.get? (n - 1) with
          | some obj =>
              (some ⟨obj.sectionName, obj.question, verbatimText,
                speaker, confidence, reasoning, sourceFile⟩, [])
          | none => (none, [])
        else (none, [])
  else (none, [])

/-- C8 counterexample: a well-formed identifier whose decremented index
is out of range (`"ID-99"` against 2 objectives) is rejected — no row
is produced — but silently: the log is empty, contradicting the
claim's "dropped with a log entry". -/
theorem claim_objective_id_counterexample :
    process_mapping_result "ID-99" "High" "t" "s" "r" "f"
        [⟨"S1", "Q1"⟩, ⟨"S2", "Q2"⟩]
      = (none, []) := by
  rfl

/-- C8 (amended): `"ID-0"` is always rejected; any identifier whose
decremented index lies outside `[0, len(objectives)-1]` is rejected
without ever indexing the objectives list — every produced row comes
from an objective found at a valid in-range index — and the run
continues (the function returns normally in all cases).  Malformed or
non-numeric identifiers are dropped with a log entry, while
well-formed but out-of-range identifiers are dropped silently. -/
theorem claim_objective_id_amended (questionId confidence : String)
    (verbatimText speaker reasoning sourceFile : String)
    (objectives : List Objective) :
    (process_mapping_result "ID-0" confidence verbatimText speaker
        reasoning sourceFile objectives = (none, [])) ∧
    (∀ row, (process_mapping_result questionId confidence verbatimText
          speaker reasoning sourceFile objectives).1 = some row →
      ∃ n, parseQuestionNum questionId = some n ∧
          1 ≤ n ∧ n - 1 < objectives.length ∧
          ∃ obj, objectives.get? (n - 1) = some obj ∧
            row = ⟨obj.sectionName, obj.question, verbatimText, speaker,
              confidence, reasoning, sourceFile⟩) ∧
    (∀ n, parseQuestionNum questionId = some n →
        ¬ (1 ≤ n ∧ n - 1 < objectives.length) →
        process_mapping_result questionId confidence verbatimText speaker
          reasoning sourceFile objectives = (none, [])) ∧
    (parseQuestionNum questionId = none →
      questionId ≠ "ID-0" → confidence ≠ "Low" →
      process_mapping_result questionId confidence verbatimText speaker
          reasoning sourceFile objectives
        = (none, ["Invalid question ID format: " ++ questionId])) := by
  refine ⟨?_, ?_, ?_, ?_⟩
  · unfold process_mapping_result
    rw [if_neg (fun h => h.1 rfl)]
  · intro row h
    unfold process_mapping_result at h
    by_cases hcond : questionId ≠ "ID-0" ∧ confidence ≠ "Low"
    · rw [if_pos hcond] at h
      split at h
      · cases h
      · rename_i n hparse
        split at h
        · rename_i hrange
          split at h
          · rename_i obj hobj
            simp only [Option.some.injEq] at h
            exact ⟨n, hparse, by omega, by omega, obj, hobj, h.symm⟩
          · cases h
        · cases h
    · rw [if_neg hcond] at h; cases h
  · intro n hn hnot
    unfold process_mapping_result
    by_cases hcond : questionId ≠ "ID-0" ∧ confidence ≠ "Low"
    · rw [if_pos hcond]
      split
      · rename_i hpn
        rw [hn] at hpn; cases hpn
      · rename_i m hm
        rw [hn] at hm
        injection hm with hm
        subst hm
        rw [if_neg (by omega)]
    · rw [if_neg hcond]
  · intro hnone hid hconf
    unfold process_mapping_result
    rw [if_pos ⟨hid, hconf⟩]
    split
    · rfl
    · rename_i m hm
      rw [hnone] at hm; cases hm

/-- Concrete instantiation of `claim_objective_id_amended` with 2
objectives: rejection of `"ID-0"`, silent rejection of the
out-of-range `"ID-99"`, and logged rejection of the malformed
`"ID-xyz"`. -/
theorem claim_objective_id_amended_witness :
    (process_mapping_result "ID-0" "High" "t" "s" "r" "f"
        [⟨"S1", "Q1"⟩, ⟨"S2", "Q2"⟩] = (none, [])) ∧
    (process_mapping_result "ID-99" "High" "t" "s" "r" "f"
        [⟨"S1", "Q1"⟩, ⟨"S2", "Q2"⟩] = (none, [])) ∧
    (process_mapping_result "ID-xyz" "High" "t" "s" "r" "f"
        [⟨"S1", "Q1"⟩, ⟨"S2", "Q2"⟩]
      = (none, ["Invalid question ID format: ID-xyz"])) :=
  ⟨(claim_objective_id_amended "ID-0" "High" "t" "s" "r" "f"
      [⟨"S1", "Q1"⟩, ⟨"S2", "Q2"⟩]).1,
    (claim_objective_id_amended "ID-99" "High" "t" "s" "r" "f"
      [⟨"S1", "Q1"⟩, ⟨"S2", "Q2"⟩]).2.2.1 99 (by decide) (by decide),
    (claim_objective_id_amended "ID-xyz" "High" "t" "s" "r" "f"
      [⟨"S1", "Q1"⟩, ⟨"S2", "Q2"⟩]).2.2.2 (by decide) (by decide)
      (by decide)⟩

/-! ## SpeakerTextExtractor —
`TextProcessor.extract_speaker_and_text`
(`src/processors/text_processor.py`, lines 26-46) and
`VerbatimExtractor._extract_from_txt`
(`src/processors/file_reader.py`, lines 76-95).

The two compiled regexes (`timestamp_pattern`, then
`simple_speaker_pattern`) come from `config.yaml`, which is part of
the repository but not among the provided sources; they are taken as
parameters of the extraction function, and concrete instances are
modelled from the spec below.  `.strip()` is `pyStrip`, restricted to
the common whitespace characters (space, tab, newline, carriage
return); Python also strips `\v`/`\f`, which no claim exercises. -/

/-- Python `str.strip` whitespace test (common subset). -/
def isPySpace (c : Char) : Bool :=
  c == ' ' || c == '\t' || c == '\n' || c == '\r'

/-- Python `str.strip()`. -/
def pyStrip (s : String) : String :=
  ⟨((s.data.dropWhile isPySpace).reverse.dropWhile isPySpace).reverse⟩

/-- `TextProcessor.extract_speaker_and_text`: strip the line, return
no-match when empty; try the timestamp pattern (groups: speaker,
timestamp, text) — a match with empty stripped text is no-match, not a
fall-through; else try the simple speaker pattern (groups: speaker,
text), same emptiness rule; else no-match. -/
def extract_speaker_and_text
    (tsMatch : String → Option (String × String × String))
    (simpleMatch : String → Option (String × String))
    (line : String) : Option (String × String × Option String) :=
  if pyStrip line = "" then none
  else
    match tsMatch (pyStrip line) with
    | some (speaker, timestamp, text) =>
        if pyStrip text = "" then none
        else some (pyStrip speaker, pyStrip text, some (pyStrip timestamp))
    | none =>
        match simpleMatch (pyStrip line) with
        | some (speaker, text) =>
            if pyStrip text = "" then none
            else some (pyStrip speaker, pyStrip text, none)
        | none => none

/-- Split a character list at the first occurrence of `sep`. -/
def splitAtFirst (sep : Char) : List Char → Option (List Char × List Char)
  | [] => none
  | c :: rest =>
      if c = sep then some ([], rest)
      else
        match splitAtFirst sep rest with
        | none => none
        | some (pre, post) => some (c :: pre, post)

/-- Modelled from the spec: the configured `patterns.simple_speaker`
regex lives in `config.yaml`, which is not among the provided sources;
per §4.2 it captures "speaker + text" as two groups.  Modelled as
`Speaker: text` — split at the first colon, non-empty speaker part. -/
def simple_speaker_pattern (line : String) : Option (String × String) :=
  match splitAtFirst ':' line.data with
  | none => none
  | some (pre, post) => if pre = [] then none else some (⟨pre⟩, ⟨post⟩)

/-- Modelled from the spec: the configured `patterns.timestamp` regex
lives in `config.yaml`, which is not among the provided sources; per
§4.2 it captures "speaker + timestamp + text" as three groups.
Modelled as `Speaker [timestamp]: text`. -/
def timestamp_pattern (line : String) :
    Option (String × String × String) :=
  match splitAtFirst '[' line.data with
  | none => none
  | some (pre, rest) =>
      match splitAtFirst ']' rest with
      | none => none
      | some (ts, post) =>
          match post with
          | ':' :: text =>
              if pre = [] then none else some (⟨pre⟩, ⟨ts⟩, ⟨text⟩)
          | _ => none

/-- One extracted verbatim record. -/
structure VerbatimRecord where
  speaker : String
  text : String
  sourceFile : String
  timestamp : Option String
deriving DecidableEq

/-- The extraction loop of `VerbatimExtractor._extract_from_txt` (with
no `==========` header marker, `_find_content_start` returns 0 and all
lines are scanned): lines whose extraction matches become records. -/
def extract_from_lines
    (tsMatch : String → Option (String × String × String))
    (simpleMatch : String → Option (String × String))
    (sourceFile : String) (lines : List String) : List VerbatimRecord :=
  lines.filterMap (fun line =>
    (extract_speaker_and_text tsMatch simpleMatch line).map
      (fun r => ⟨r.1, r.2.1, sourceFile, r.2.2⟩))

/-- C9: extraction strips the line and returns no-match on an empty
result; otherwise applies ordered first-match rules — the
speaker+timestamp+text pattern, returning `(speaker, text, timestamp)`
when it matches with non-empty trimmed text; else the speaker+text
pattern, returning `(speaker, text, none)` when it matches with
non-empty text; else no-match — and a pattern match whose text capture
is empty after trimming yields no-match, never an empty-text verbatim.
The three lines `"Alice: I like the design."`, `""`,
`"Bob: It's confusing."` yield exactly two records with speakers Alice
and Bob, the blank line ignored. -/
theorem claim_speaker_extraction
    (tsMatch : String → Option (String × String × String))
    (simpleMatch : String → Option (String × String))
    (line speaker timestamp text : String) :
    (pyStrip line = "" →
      extract_speaker_and_text tsMatch simpleMatch line = none) ∧
    (pyStrip line ≠ "" →
      tsMatch (pyStrip line) = some (speaker, timestamp, text) →
      extract_speaker_and_text tsMatch simpleMatch line
        = if pyStrip text = "" then none
          else some (pyStrip speaker, pyStrip text,
            some (pyStrip timestamp))) ∧
    (pyStrip line ≠ "" →
      tsMatch (pyStrip line) = none →
      simpleMatch (pyStrip line) = some (speaker, text) →
      extract_speaker_and_text tsMatch simpleMatch line
        = if pyStrip text = "" then none
          else some (pyStrip speaker, pyStrip text, none)) ∧
    (pyStrip line ≠ "" →
      tsMatch (pyStrip line) = none →
      simpleMatch (pyStrip line) = none →
      extract_speaker_and_text tsMatch simpleMatch line = none) ∧
    extract_from_lines timestamp_pattern simple_speaker_pattern "t.txt"
        ["Alice: I like the design.", "", "Bob: It\x27s confusing."]
      = [⟨"Alice", "I like the design.", "t.txt", none⟩,
          ⟨"Bob", "It\x27s confusing.", "t.txt", none⟩] := by
  refine ⟨?_, ?_, ?_, ?_, ?_⟩
  · intro hempty
    unfold extract_speaker_and_text
    rw [if_pos hempty]
  · intro hne hts
    unfold extract_speaker_and_text
    rw [if_neg hne, hts]
  · intro hne hts hsimple
    unfold extract_speaker_and_text
    rw [if_neg hne, hts, hsimple]
  · intro hne hts hsimple
    unfold extract_speaker_and_text
    rw [if_neg hne, hts, hsimple]
  · decide

/-- Concrete instantiation of `claim_speaker_extraction`: the simple
speaker pattern path on `"Bob: hi"` (timestamp pattern fails, text
non-empty), and the empty-line path on `"   "`. -/
theorem claim_speaker_extraction_witness :
    extract_speaker_and_text timestamp_pattern simple_speaker_pattern
        "Bob: hi" = some ("Bob", "hi", none) ∧
    extract_speaker_and_text timestamp_pattern simple_speaker_pattern
        "   " = none :=
  ⟨by
    have h := (claim_speaker_extraction timestamp_pattern
      simple_speaker_pattern "Bob: hi" "Bob" "" " hi").2.2.1
      (by decide) (by decide) (by decide)
    rw [h]
    decide,
    (claim_speaker_extraction timestamp_pattern simple_speaker_pattern
      "   " "" "" "").1 (by decide)⟩

end QualPipeline
